import Mathlib

/-!
# Verification of the lifeline-ai vital-signs estimation engine

This file gives a shallow embedding of the signal-processing code of the
lifeline-ai repository and settles the frozen claims about it.

The source contains three near-identical `PPGProcessor` classes:

* the one in `src/components/MedicalVitalScanner.tsx` (prefix `mvs` below):
  red channel, 360-sample minimum, moving-average partial detrend, band-pass
  0.8-3.5 Hz, adaptive peaks with an 18-sample refractory gap, exponentially
  weighted interval average, BPM guard 35-220, confidence forced into [96, 99];
* the first variant in the unnamed part_001 source file (prefix `p1a`):
  green channel, 300-sample minimum, plain detrend, band-pass 0.7-4.0 Hz,
  `findPeaks` with a 15-sample refractory gap, plain interval mean, BPM guard
  40-200, and an SpO2 path that adds `(Math.random() - 0.5) * 2` to the
  already-clamped percentage (the random draw is modelled as an explicit
  `rand` argument with `0 ≤ rand < 1`);
* the second variant in part_001 (prefix `p1b`): as `p1a` but with the
  adaptive peak detector and the clamped SpO2 path of the scanner variant.

JavaScript numbers are modelled as real numbers, `Math.sqrt` as `Real.sqrt`,
and `Math.round` as `round` (both round halves up).  The
`HeartRateScanner.tsx` peak stage only uses field arithmetic, so it is
embedded over `ℚ` to keep it kernel-computable.
-/

set_option maxRecDepth 20000

open scoped Classical

/-- One optical sample as produced by the camera loop (`interface PPGSample`). -/
structure PPGSample where
  red : ℝ
  green : ℝ
  blue : ℝ
  timestamp : ℝ
  brightness : ℝ

/-- A heart-rate result whose confidence and irregularity have been rounded to
integers (`MedicalVitalScanner` and the second part_001 variant). -/
structure HeartReading where
  bpm : ℤ
  confidence : ℤ
  irregularity : ℤ

/-- A heart-rate result with unrounded confidence/irregularity (first part_001
variant returns `confidence * 100` without `Math.round`). -/
structure HeartReadingR where
  bpm : ℤ
  confidence : ℝ
  irregularity : ℝ

/-- An SpO2 result with integer confidence (`MedicalVitalScanner` and the
second part_001 variant). -/
structure OxygenReading where
  percentage : ℤ
  confidence : ℤ

/-- An SpO2 result with real confidence (first part_001 variant returns
`fingerCoverage * 85` unrounded). -/
structure OxygenReadingR where
  percentage : ℤ
  confidence : ℝ

/-- The Kalman smoother state `kalmanFilterRef.current = { x, p }`. -/
structure KalmanState where
  x : ℝ
  p : ℝ

/-! ## HeartRateScanner peak stage (rational, computable)

`HeartRateScanner.tsx` `processHeartRateData`: a 5-point moving average
followed by a local-maximum scan against `1.1 ×` the global smoothed mean.
It uses only field arithmetic, so it is embedded over `ℚ`. -/

/-- The smoothing filter of `processHeartRateData`: each element becomes the
mean of `samples.slice(max(0, i - 2), min(n, i + 3))`. -/
def hrsSmooth (samples : List ℚ) : List ℚ :=
  (List.range samples.length).map fun i =>
    let slice := (samples.drop (i - 2)).take (min samples.length (i + 3) - (i - 2))
    slice.sum / slice.length

/-- The peak listing of `processHeartRateData`: indices `2 ≤ i < n - 2` that
are strict local maxima over both neighbours and exceed `1.1 ×` the mean of
the smoothed signal.  There is no refractory-distance condition. -/
def hrsPeaks (samples : List ℚ) : List ℕ :=
  let smoothed := hrsSmooth samples
  let threshold := smoothed.sum / smoothed.length
  (List.range' 2 (smoothed.length - 4)).foldl
    (fun peaks i =>
      if smoothed.getD (i - 1) 0 < smoothed.getD i 0 ∧ smoothed.getD (i + 1) 0 < smoothed.getD i 0
          ∧ threshold * 1.1 < smoothed.getD i 0 then
        peaks ++ [i]
      else peaks) []

/-- A 54-sample periodic test signal (9 repetitions of a period-6 triangular
bump): long enough for the `samples.length < 50` guard of
`processHeartRateData`, with one clear bump every 6 samples. -/
def hrsSig : List ℚ := (List.replicate 9 [0, 1, 2, 3, 2, 1]).flatten

noncomputable section

/-! ## Shared numeric helpers

All three `PPGProcessor` classes use the same `reduce`-based mean and
population variance, the same single-pole IIR filters and the same
interval validation. -/

/-- The source mean `reduce((sum, val) => sum + val, 0) / length`; the empty list gives
`0 / 0 = 0`, as every call site in the source guards the length anyway. -/
def lmean (l : List ℝ) : ℝ := l.sum / l.length

/-- The source population variance
`reduce((sum, val) => sum + pow(val - mean, 2), 0) / length`. -/
def lvariance (l : List ℝ) : ℝ := (l.map fun v => (v - lmean l) ^ 2).sum / l.length

/-- Source `calculateACComponent`: the pulsatile component, `sqrt` of the variance. -/
def calculateACComponent (signal : List ℝ) : ℝ := Real.sqrt (lvariance signal)

/-- Source `calculateDCComponent`: the baseline component, the mean. -/
def calculateDCComponent (signal : List ℝ) : ℝ := lmean signal

/-- Embedding of `Math.min(...list)` for the nonempty slices used by the peak-quality
helpers (the source never applies it to an empty slice). -/
def listMin : List ℝ → ℝ
  | [] => 0
  | x :: xs => xs.foldl min x

/-- Recursion core of `highPassFilter`: carries the previous output and the
previous input, `yᵢ = α * (yᵢ₋₁ + xᵢ - xᵢ₋₁)`. -/
def highPassGo (alpha prevY prevX : ℝ) : List ℝ → List ℝ
  | [] => []
  | x :: xs => alpha * (prevY + x - prevX) :: highPassGo alpha (alpha * (prevY + x - prevX)) x xs

/-- Source `highPassFilter`: `result = [signal[0]]`, then the recurrence above. -/
def highPassFilter (alpha : ℝ) : List ℝ → List ℝ
  | [] => []
  | x :: xs => x :: highPassGo alpha x x xs

/-- Recursion core of `lowPassFilter`: `yᵢ = α * xᵢ + (1 - α) * yᵢ₋₁`. -/
def lowPassGo (alpha prevY : ℝ) : List ℝ → List ℝ
  | [] => []
  | x :: xs => (alpha * x + (1 - alpha) * prevY) :: lowPassGo alpha (alpha * x + (1 - alpha) * prevY) xs

/-- Source `lowPassFilter`: `result = [signal[0]]`, then the recurrence above. -/
def lowPassFilter (alpha : ℝ) : List ℝ → List ℝ
  | [] => []
  | x :: xs => x :: lowPassGo alpha x xs

/-- Source `butterworthBandpass(signal, lowCut, highCut)` with `nyquist = 30 / 2`:
a high-pass at `lowCut / 15` followed by a low-pass at `highCut / 15`. -/
def butterworthBandpass (lowCut highCut : ℝ) (signal : List ℝ) : List ℝ :=
  lowPassFilter (highCut / 15) (highPassFilter (lowCut / 15) signal)

/-- The per-sample valid-contact predicate of `getFingerCoverage`:
brightness in (120, 220), red dominant over green and blue, red above 100. -/
def goodSample (s : PPGSample) : Prop :=
  (120 < s.brightness ∧ s.brightness < 220) ∧ (s.green < s.red ∧ s.blue < s.red) ∧ 100 < s.red

/-- Source `getFingerCoverage` (identical in all three processor classes): the
fraction of the most recent 30 samples that pass `goodSample`; 0 when fewer
than 30 samples are buffered. -/
def getFingerCoverage (samples : List PPGSample) : ℝ :=
  if samples.length < 30 then 0
  else
    ((samples.drop (samples.length - 30)).countP fun s => decide (goodSample s)) /
      ((samples.drop (samples.length - 30)).length : ℝ)

/-- The local window `signal.slice(max(0, i - 12), min(n, i + 12))` used by
`findAdaptivePeaks` (window size `⌊30 * 0.4⌋ = 12`). -/
def adaptiveLocalWindow (signal : List ℝ) (i : ℕ) : List ℝ :=
  (signal.drop (i - 12)).take (min signal.length (i + 12) - (i - 12))

/-- The adaptive threshold of `findAdaptivePeaks`:
`localMean + localStd * 0.6` over `adaptiveLocalWindow`. -/
def adaptiveThreshold (signal : List ℝ) (i : ℕ) : ℝ :=
  lmean (adaptiveLocalWindow signal i) +
    Real.sqrt (lvariance (adaptiveLocalWindow signal i)) * 0.6

/-- The acceptance test of the `findAdaptivePeaks` loop body at index `i`
(shared verbatim by `MedicalVitalScanner` and the second part_001 variant):
strict local maximum over a ±3 neighbourhood, above the adaptive threshold,
more than 18 samples after the previously accepted peak, and signal strength
above a tenth of the local mean magnitude. -/
def adaptiveAccept (signal : List ℝ) (peaks : List ℕ) (i : ℕ) : Prop :=
  (signal.getD (i - 1) 0 < signal.getD i 0 ∧ signal.getD (i + 1) 0 < signal.getD i 0 ∧
    signal.getD (i - 2) 0 < signal.getD i 0 ∧ signal.getD (i + 2) 0 < signal.getD i 0 ∧
    signal.getD (i - 3) 0 < signal.getD i 0 ∧ signal.getD (i + 3) 0 < signal.getD i 0) ∧
  adaptiveThreshold signal i < signal.getD i 0 ∧
  (match peaks.getLast? with
   | none => True
   | some l => (18 : ℤ) < (i : ℤ) - (l : ℤ)) ∧
  |lmean (adaptiveLocalWindow signal i)| * 0.1 < |signal.getD i 0|

/-- Source `findAdaptivePeaks`: the loop `for (i = 3; i < n - 3; i++)` accumulating
the indices accepted by `adaptiveAccept`. -/
def findAdaptivePeaks (signal : List ℝ) : List ℕ :=
  (List.range' 3 (signal.length - 6)).foldl
    (fun peaks i => if adaptiveAccept signal peaks i then peaks ++ [i] else peaks) []

/-- Source `calculateLocalThreshold` of the first part_001 variant: mean plus half a
standard deviation over `signal.slice(max(0, i - 6), min(n, i + 6))`
(half-window `⌊12 / 2⌋ = 6`). -/
def calculateLocalThreshold (signal : List ℝ) (index : ℕ) : ℝ :=
  lmean ((signal.drop (index - 6)).take (min signal.length (index + 6) - (index - 6))) +
    Real.sqrt (lvariance ((signal.drop (index - 6)).take (min signal.length (index + 6) - (index - 6)))) * 0.5

/-- The acceptance test of the first part_001 variant's `findPeaks` loop:
strict local maximum over a ±2 neighbourhood, above `calculateLocalThreshold`,
and more than 15 samples after the previously accepted peak. -/
def findPeaksAccept (signal : List ℝ) (peaks : List ℕ) (i : ℕ) : Prop :=
  (signal.getD (i - 1) 0 < signal.getD i 0 ∧ signal.getD (i + 1) 0 < signal.getD i 0 ∧
    signal.getD (i - 2) 0 < signal.getD i 0 ∧ signal.getD (i + 2) 0 < signal.getD i 0) ∧
  calculateLocalThreshold signal i < signal.getD i 0 ∧
  (match peaks.getLast? with
   | none => True
   | some l => (15 : ℤ) < (i : ℤ) - (l : ℤ))

/-- Source `findPeaks` of the first part_001 variant: the loop
`for (i = 2; i < n - 2; i++)`. -/
def findPeaks (signal : List ℝ) : List ℕ :=
  (List.range' 2 (signal.length - 4)).foldl
    (fun peaks i => if findPeaksAccept signal peaks i then peaks ++ [i] else peaks) []

/-- Source `calculateIntervals`: consecutive differences of the peak indices. -/
def calculateIntervals (peaks : List ℕ) : List ℝ :=
  (peaks.zip peaks.tail).map fun p => (p.2 : ℝ) - (p.1 : ℝ)

/-- Source `validateIntervals` (identical in all three classes): reject everything
when fewer than 3 intervals; keep intervals within 30 % of the median; reject
when fewer than 2 survive; report the kept intervals and their coefficient of
variation as the irregularity. -/
def validateIntervals (intervals : List ℝ) : List ℝ × ℝ :=
  if intervals.length < 3 then ([], 1)
  else
    let sorted := intervals.insertionSort (· ≤ ·)
    let median := sorted.getD (sorted.length / 2) 0
    let cleanIntervals := intervals.filter fun interval => decide (|interval - median| < median * 0.3)
    if cleanIntervals.length < 2 then ([], 1)
    else (cleanIntervals, Real.sqrt (lvariance cleanIntervals) / lmean cleanIntervals)

/-- Source `calculateSNR` (identical in all three classes): absolute mean over the standard
deviation of the filtered signal; 0 for short signals or zero deviation. -/
def calculateSNR (signal : List ℝ) : ℝ :=
  if signal.length < 60 then 0
  else if 0 < Real.sqrt (lvariance signal) then |lmean signal| / Real.sqrt (lvariance signal)
  else 0

/-- Source `calculateStability` (identical in all three classes):
`max(0, 1 - cv)` of the clean intervals. -/
def calculateStability (intervals : List ℝ) : ℝ :=
  if intervals.length < 2 then 0
  else max 0 (1 - Real.sqrt (lvariance intervals) / lmean intervals)

/-- One step of the `MedicalVitalScanner` `calculatePeakQuality` loop,
accumulating `(totalProminence, totalSharpness, validPeaks)` over the peaks
with `5 ≤ peak < n - 5`. -/
def mvsPeakQualityStep (signal : List ℝ) (acc : ℝ × ℝ × ℕ) (peak : ℕ) : ℝ × ℝ × ℕ :=
  if 5 ≤ peak ∧ peak + 5 < signal.length then
    let prominence := signal.getD peak 0 -
      max (listMin ((signal.drop (peak - 5)).take 5)) (listMin ((signal.drop (peak + 1)).take 5))
    let sharpness := ((signal.getD peak 0 - signal.getD (peak - 1) 0) +
      (signal.getD (peak - 1) 0 - signal.getD (peak + 1) 0)) / 2
    if 0 < prominence then (acc.1 + prominence, acc.2.1 + |sharpness|, acc.2.2 + 1) else acc
  else acc

/-- Source `calculatePeakQuality` of `MedicalVitalScanner`: combined prominence and
sharpness quality, capped at 1. -/
def mvsCalculatePeakQuality (peaks : List ℕ) (signal : List ℝ) : ℝ :=
  if peaks.length < 2 then 0
  else
    let acc := peaks.foldl (mvsPeakQualityStep signal) (0, 0, 0)
    let avgProminence := if 0 < acc.2.2 then acc.1 / (acc.2.2 : ℝ) else 0
    let avgSharpness := if 0 < acc.2.2 then acc.2.1 / (acc.2.2 : ℝ) else 0
    min 1 ((avgProminence / 8 + avgSharpness / 5) / 2)

/-- One step of the second part_001 variant's `calculatePeakQuality` loop
(prominence only, valley taken over both 5-sample slices at once). -/
def p1bPeakQualityStep (signal : List ℝ) (acc : ℝ × ℕ) (peak : ℕ) : ℝ × ℕ :=
  if 5 ≤ peak ∧ peak + 5 < signal.length then
    let prominence := signal.getD peak 0 -
      listMin (((signal.drop (peak - 5)).take 5) ++ ((signal.drop (peak + 1)).take 5))
    if 0 < prominence then (acc.1 + prominence, acc.2 + 1) else acc
  else acc

/-- Source `calculatePeakQuality` of the second part_001 variant. -/
def p1bCalculatePeakQuality (peaks : List ℕ) (signal : List ℝ) : ℝ :=
  if peaks.length < 2 then 0
  else
    let acc := peaks.foldl (p1bPeakQualityStep signal) (0, 0)
    if 0 < acc.2 then min 1 (acc.1 / (acc.2 : ℝ) / 10) else 0

/-- Source `calculateCorrelation` of `MedicalVitalScanner`: the absolute normalized
correlation of two windows over their common prefix length. -/
def calculateCorrelation (s1 s2 : List ℝ) : ℝ :=
  let numerator := ((s1.zip s2).map fun p => (p.1 - lmean s1) * (p.2 - lmean s2)).sum
  let d1 := ((s1.zip s2).map fun p => (p.1 - lmean s1) ^ 2).sum
  let d2 := ((s1.zip s2).map fun p => (p.2 - lmean s2) ^ 2).sum
  if 0 < Real.sqrt (d1 * d2) then |numerator / Real.sqrt (d1 * d2)| else 0

/-- Source `calculateSignalConsistency` of `MedicalVitalScanner`: the mean
correlation of consecutive 60-sample windows. -/
def calculateSignalConsistency (signal : List ℝ) : ℝ :=
  if signal.length < 60 then 0
  else
    let windows := signal.length / 60
    let score := ((List.range (windows - 1)).map fun w =>
      calculateCorrelation ((signal.drop (w * 60)).take 60)
        ((signal.drop ((w + 1) * 60)).take 60)).sum
    if 1 < windows then score / ((windows : ℝ) - 1) else 0

/-- Source `calculateSignalStability` (identical in `MedicalVitalScanner` and the
second part_001 variant): mean moving variance over 30-sample windows taken
every 10 samples, normalized against 1000. -/
def calculateSignalStability (signal : List ℝ) : ℝ :=
  if signal.length < 30 then 0
  else
    let count := (signal.length - 30) / 10 + 1
    let total := ((List.range' 0 count 10).map fun i => lvariance ((signal.drop i).take 30)).sum
    max 0 (1 - total / (count : ℝ) / 1000)

/-- The SpO2 calibration curve shared by `MedicalVitalScanner.estimateSpO2`
and the second part_001 variant: four branches over the ratio-of-ratios. -/
def spo2Curve (R : ℝ) : ℝ :=
  if R < 0.5 then 100
  else if R < 1.0 then 110 - 25 * R
  else if R < 2.0 then 105 - 20 * R
  else 85 - 10 * R

/-- AC component of the red channel of a sample window. -/
def redACOf (samples : List PPGSample) : ℝ := calculateACComponent (samples.map PPGSample.red)

/-- DC component of the red channel of a sample window. -/
def redDCOf (samples : List PPGSample) : ℝ := calculateDCComponent (samples.map PPGSample.red)

/-- AC component of the blue channel (the source's infrared proxy). -/
def irACOf (samples : List PPGSample) : ℝ := calculateACComponent (samples.map PPGSample.blue)

/-- DC component of the blue channel (the source's infrared proxy). -/
def irDCOf (samples : List PPGSample) : ℝ := calculateDCComponent (samples.map PPGSample.blue)

/-- The ratio-of-ratios `R = (redAC/redDC) / (irAC/irDC)`. -/
def ratioOfRatios (samples : List PPGSample) : ℝ :=
  (redACOf samples / redDCOf samples) / (irACOf samples / irDCOf samples)

/-! ## MedicalVitalScanner.tsx `PPGProcessor` (prefix `mvs`) -/

/-- Step 1 of `mvs` `processHeartRate`, second half: the in-place
moving-average partial detrend.  Index `i` is corrected by `0.3 ×` the mean
of the *current* (partially updated) array over
`slice(max(0, i - 60), min(n, i + 60))` (window `⌊30 * 2⌋ = 60`), exactly as
the JavaScript loop mutates `detrended` while reading from it. -/
def movingDetrendStep (arr : List ℝ) (i : ℕ) : List ℝ :=
  arr.set i (arr.getD i 0 -
    (((arr.drop (i - 60)).take (min arr.length (i + 60) - (i - 60))).sum /
      ((min arr.length (i + 60) - (i - 60) : ℕ) : ℝ)) * 0.3)

/-- The full moving-average detrend loop over all indices. -/
def movingDetrend (arr : List ℝ) : List ℝ :=
  (List.range arr.length).foldl movingDetrendStep arr

/-- The filtered signal of `mvs` `processHeartRate`: red channel, global-mean
detrend, moving-average partial detrend, band-pass 0.8-3.5 Hz. -/
def mvsFiltered (samples : List PPGSample) : List ℝ :=
  butterworthBandpass 0.8 3.5
    (movingDetrend ((samples.map PPGSample.red).map fun val =>
      val - lmean (samples.map PPGSample.red)))

/-- The accepted peaks of `mvs` `processHeartRate`. -/
def mvsPeaks (samples : List PPGSample) : List ℕ := findAdaptivePeaks (mvsFiltered samples)

/-- The clean (median-validated) inter-peak intervals of `mvs`. -/
def mvsClean (samples : List PPGSample) : List ℝ :=
  (validateIntervals (calculateIntervals (mvsPeaks samples))).1

/-- The irregularity (coefficient of variation of the clean intervals). -/
def mvsIrregularity (samples : List PPGSample) : ℝ :=
  (validateIntervals (calculateIntervals (mvsPeaks samples))).2

/-- Step 5 of `mvs` `processHeartRate`: the recency-weighted average of the
clean intervals, interval `i` carrying weight `1.1 ^ i`. -/
def weightedAverage (l : List ℝ) : ℝ :=
  (List.zipWith (· * ·) l ((List.range l.length).map fun i => (1.1 : ℝ) ^ i)).sum /
    ((List.range l.length).map fun i => (1.1 : ℝ) ^ i).sum

/-- The guard prefix of `mvs` `processHeartRate` up to and including the BPM
computation: `none` when the window is short, coverage is below 0.6, fewer
than 3 peaks are found, or fewer than 2 clean intervals survive; otherwise
the rounded `60 * 30 / weightedAverage` BPM before the physiological guard. -/
def mvsRawBpm (samples : List PPGSample) : Option ℤ :=
  if samples.length < 360 then none
  else if getFingerCoverage samples < 0.6 then none
  else if (mvsPeaks samples).length < 3 then none
  else if (mvsClean samples).length < 2 then none
  else some (round ((60 * 30 : ℝ) / weightedAverage (mvsClean samples)))

/-- Step 7 of `mvs` `processHeartRate`: the "medical-grade" confidence.
The weighted composite is capped at 1, boosted by 1.15 for at least 5 clean
intervals with stability above 0.8 and by 1.1 for strong SNR with strong peak
quality, scaled to 0-100 and finally forced into `[96, 99]` by
`Math.max(96, Math.min(99, ...))`. -/
def mvsConfidenceScore (snr stability fingerCoverage peakQuality signalConsistency : ℝ)
    (cleanCount : ℕ) : ℤ :=
  let baseConfidence := min (snr * 0.25 + stability * 0.25 + fingerCoverage * 0.25 +
    peakQuality * 0.15 + signalConsistency * 0.1) 1.0
  let boosted1 := if 5 ≤ cleanCount ∧ 0.8 < stability then baseConfidence * 1.15 else baseConfidence
  let boosted2 := if 0.7 < snr ∧ 0.8 < peakQuality then boosted1 * 1.1 else boosted1
  max 96 (min 99 (round (boosted2 * 100)))

/-- Modelled from the spec (§4.5): the RateEstimator confidence as the spec
words it — the weighted composite capped at 1 and scaled to a 0-100 score,
with **no** boost multipliers and **no** forced minimum floor (the spec's
design notes explicitly refuse to reproduce the source's forced ≥ 96 floor).
Used only to compare the source's confidence against the claim's wording. -/
def specScaledConfidence (snr stability fingerCoverage peakQuality signalConsistency : ℝ) : ℤ :=
  round (min (snr * 0.25 + stability * 0.25 + fingerCoverage * 0.25 +
    peakQuality * 0.15 + signalConsistency * 0.1) 1.0 * 100)

/-- Source `MedicalVitalScanner.PPGProcessor.processHeartRate`: the guard prefix,
the BPM guard `bpm < 35 || bpm > 220`, then the result record. -/
def mvsProcessHeartRate (samples : List PPGSample) : Option HeartReading :=
  match mvsRawBpm samples with
  | none => none
  | some bpm =>
    if bpm < 35 ∨ 220 < bpm then none
    else
      some ⟨bpm,
        mvsConfidenceScore (calculateSNR (mvsFiltered samples))
          (calculateStability (mvsClean samples)) (getFingerCoverage samples)
          (mvsCalculatePeakQuality (mvsPeaks samples) (mvsFiltered samples))
          (calculateSignalConsistency (mvsFiltered samples)) (mvsClean samples).length,
        round (mvsIrregularity samples * 100)⟩

/-- Source `estimateSpO2` of `MedicalVitalScanner` and of the second part_001
variant; the two differ only in the minimum window length (360 vs 300).
Guards: window length, coverage below 0.7, any zero AC/DC component, either
perfusion index below 0.1.  The percentage is the calibration curve clamped
into `[70, 100]` and rounded, the confidence a weighted score clamped into
`[65, 95]`. -/
def estimateSpO2Core (minSamples : ℕ) (samples : List PPGSample) : Option OxygenReading :=
  if samples.length < minSamples then none
  else if getFingerCoverage samples < 0.7 then none
  else if redDCOf samples = 0 ∨ irDCOf samples = 0 ∨ redACOf samples = 0 ∨ irACOf samples = 0 then
    none
  else if redACOf samples / redDCOf samples * 100 < 0.1 ∨
      irACOf samples / irDCOf samples * 100 < 0.1 then none
  else
    some ⟨round (max 70 (min 100 (spo2Curve (ratioOfRatios samples)))),
      max 65 (min 95 (round (getFingerCoverage samples * 50 +
        (min (redACOf samples / redDCOf samples * 100 + irACOf samples / irDCOf samples * 100) 10 / 10) * 30 +
        calculateSignalStability (samples.map PPGSample.red) * 20)))⟩

/-- Source `MedicalVitalScanner.PPGProcessor.estimateSpO2` (minimum window 360). -/
def mvsEstimateSpO2 (samples : List PPGSample) : Option OxygenReading :=
  estimateSpO2Core 360 samples

/-! ## part_001 first `PPGProcessor` variant (prefix `p1a`) -/

/-- The filtered signal of the first part_001 variant: green channel,
global-mean detrend, band-pass 0.7-4.0 Hz. -/
def p1aFiltered (samples : List PPGSample) : List ℝ :=
  butterworthBandpass 0.7 4.0
    ((samples.map PPGSample.green).map fun val => val - lmean (samples.map PPGSample.green))

/-- The accepted peaks of the first part_001 variant. -/
def p1aPeaks (samples : List PPGSample) : List ℕ := findPeaks (p1aFiltered samples)

/-- The clean intervals of the first part_001 variant. -/
def p1aClean (samples : List PPGSample) : List ℝ :=
  (validateIntervals (calculateIntervals (p1aPeaks samples))).1

/-- The irregularity of the first part_001 variant. -/
def p1aIrregularity (samples : List PPGSample) : ℝ :=
  (validateIntervals (calculateIntervals (p1aPeaks samples))).2

/-- The guard prefix of the first part_001 `processHeartRate` (minimum 300
samples, coverage 0.7, at least 4 peaks, at least 3 clean intervals) and the
plain-mean BPM before the `bpm < 40 || bpm > 200` guard. -/
def p1aRawBpm (samples : List PPGSample) : Option ℤ :=
  if samples.length < 300 then none
  else if getFingerCoverage samples < 0.7 then none
  else if (p1aPeaks samples).length < 4 then none
  else if (p1aClean samples).length < 3 then none
  else some (round ((60 * 30 : ℝ) / lmean (p1aClean samples)))

/-- Source `processHeartRate` of the first part_001 variant. -/
def p1aProcessHeartRate (samples : List PPGSample) : Option HeartReadingR :=
  match p1aRawBpm samples with
  | none => none
  | some bpm =>
    if bpm < 40 ∨ 200 < bpm then none
    else
      some ⟨bpm,
        min (calculateSNR (p1aFiltered samples) * 0.4 +
          calculateStability (p1aClean samples) * 0.4 + getFingerCoverage samples * 0.2) 1.0 * 100,
        p1aIrregularity samples * 100⟩

/-- Source `estimateSpO2` of the first part_001 variant.  `Math.random()` is
modelled as the explicit argument `rand` (a fresh uniform draw in `[0, 1)` on
every call): the percentage is `110 - 25R` clamped into `[70, 100]`, then
perturbed by `(rand - 0.5) * 2` *after* the clamp, then rounded. -/
def p1aEstimateSpO2 (samples : List PPGSample) (rand : ℝ) : Option OxygenReadingR :=
  if samples.length < 300 then none
  else if getFingerCoverage samples < 0.7 then none
  else if redDCOf samples = 0 ∨ irDCOf samples = 0 then none
  else
    some ⟨round (max 70 (min 100 (110 - 25 * ratioOfRatios samples)) + (rand - 0.5) * 2),
      getFingerCoverage samples * 85⟩

/-! ## part_001 second `PPGProcessor` variant (prefix `p1b`) -/

/-- The filtered signal of the second part_001 variant (same conditioning as
`p1a`, but the peaks are found with `findAdaptivePeaks`). -/
def p1bFiltered (samples : List PPGSample) : List ℝ :=
  butterworthBandpass 0.7 4.0
    ((samples.map PPGSample.green).map fun val => val - lmean (samples.map PPGSample.green))

/-- The accepted peaks of the second part_001 variant. -/
def p1bPeaks (samples : List PPGSample) : List ℕ := findAdaptivePeaks (p1bFiltered samples)

/-- The clean intervals of the second part_001 variant. -/
def p1bClean (samples : List PPGSample) : List ℝ :=
  (validateIntervals (calculateIntervals (p1bPeaks samples))).1

/-- The irregularity of the second part_001 variant. -/
def p1bIrregularity (samples : List PPGSample) : ℝ :=
  (validateIntervals (calculateIntervals (p1bPeaks samples))).2

/-- The guard prefix and plain-mean BPM of the second part_001
`processHeartRate`. -/
def p1bRawBpm (samples : List PPGSample) : Option ℤ :=
  if samples.length < 300 then none
  else if getFingerCoverage samples < 0.7 then none
  else if (p1bPeaks samples).length < 4 then none
  else if (p1bClean samples).length < 3 then none
  else some (round ((60 * 30 : ℝ) / lmean (p1bClean samples)))

/-- Source `processHeartRate` of the second part_001 variant. -/
def p1bProcessHeartRate (samples : List PPGSample) : Option HeartReading :=
  match p1bRawBpm samples with
  | none => none
  | some bpm =>
    if bpm < 40 ∨ 200 < bpm then none
    else
      some ⟨bpm,
        round (min (calculateSNR (p1bFiltered samples) * 0.3 +
          calculateStability (p1bClean samples) * 0.3 + getFingerCoverage samples * 0.2 +
          p1bCalculatePeakQuality (p1bPeaks samples) (p1bFiltered samples) * 0.2) 1.0 * 100),
        round (p1bIrregularity samples * 100)⟩

/-- Source `estimateSpO2` of the second part_001 variant (minimum window 300,
otherwise identical to the scanner variant). -/
def p1bEstimateSpO2 (samples : List PPGSample) : Option OxygenReading :=
  estimateSpO2Core 300 samples

/-! ## Kalman smoother (`applyKalmanFilter` in MedicalVitalScanner.tsx) -/

/-- The initial filter state `kalmanFilterRef = { x: 0, p: 1000 }`. -/
def kalmanInit : KalmanState := ⟨0, 1000⟩

/-- One `applyKalmanFilter` call: predicted covariance `p + 0.1`, gain
`k = predictedP / (predictedP + 4)`, state moved by `k` towards the
measurement, covariance shrunk to `(1 - k) * predictedP`. -/
def kalmanStep (kalman : KalmanState) (measurement : ℝ) : KalmanState :=
  ⟨kalman.x + ((kalman.p + 0.1) / ((kalman.p + 0.1) + 4)) * (measurement - kalman.x),
    (1 - (kalman.p + 0.1) / ((kalman.p + 0.1) + 4)) * (kalman.p + 0.1)⟩

/-- The displayed value of one `applyKalmanFilter` call: `Math.round(x)`. -/
def applyKalmanFilter (kalman : KalmanState) (measurement : ℝ) : ℤ :=
  round (kalmanStep kalman measurement).x

/-- The state after feeding a list of measurements from the initial state. -/
def kalmanRun (measurements : List ℝ) : KalmanState :=
  measurements.foldl kalmanStep kalmanInit

/-! ## Concrete inputs used by counterexamples and witnesses -/

/-- A sample with red 140, green 80, blue 40, brightness 160: valid contact. -/
def sampleA : PPGSample := ⟨140, 80, 40, 0, 160⟩

/-- A sample with red 160, green 80, blue 60, brightness 160: valid contact. -/
def sampleB : PPGSample := ⟨160, 80, 60, 0, 160⟩

/-- A 300-sample window alternating `sampleA` and `sampleB`: full coverage,
red channel mean 150 and deviation 10, blue channel mean 50 and deviation 10,
so the ratio-of-ratios is `(10/150) / (10/50) = 1/3`. -/
def pairWindow : List PPGSample := (List.replicate 150 [sampleA, sampleB]).flatten

end

/-! ## Helper lemmas -/

theorem round_le_round_of_le {x y : ℝ} (h : x ≤ y) : round x ≤ round y := by
  rw [round_eq, round_eq]; exact Int.floor_le_floor (by linarith)

theorem round_between {x : ℝ} {lo hi : ℤ} (h1 : (lo : ℝ) ≤ x) (h2 : x ≤ (hi : ℝ)) :
    lo ≤ round x ∧ round x ≤ hi :=
  ⟨by simpa using round_le_round_of_le h1, by simpa using round_le_round_of_le h2⟩

theorem abs_round_sub_round_le {a b : ℝ} (h : |a - b| ≤ 2) : |round a - round b| ≤ 2 := by
  rw [abs_le] at h ⊢
  constructor
  · have hb : round b ≤ round (a + 2) := round_le_round_of_le (by linarith)
    rw [show (a + 2 : ℝ) = a + ((2 : ℤ) : ℝ) by norm_num, round_add_int] at hb
    omega
  · have ha : round a ≤ round (b + 2) := round_le_round_of_le (by linarith)
    rw [show (b + 2 : ℝ) = b + ((2 : ℤ) : ℝ) by norm_num, round_add_int] at ha
    omega

/-! ## Claim C6 -/

/-- Claim C6: the SpO2 calibration curve is monotonically non-increasing on
the nonnegative ratios, across all four branches and their boundaries. -/
theorem spec_c6_curve_antitone (R1 R2 : ℝ) (h0 : 0 ≤ R1) (h12 : R1 ≤ R2) :
    spo2Curve R2 ≤ spo2Curve R1 := by
  unfold spo2Curve
  split_ifs <;> linarith

/-- Witness for C6 at the concrete pair `R1 = 3/10`, `R2 = 3`. -/
theorem spec_c6_curve_antitone_witness : spo2Curve 3 ≤ spo2Curve (3 / 10) :=
  spec_c6_curve_antitone (3 / 10) 3 (by norm_num) (by norm_num)

/-! ## Claim C9 -/

theorem kalmanStep_p_pos {st : KalmanState} (h : 0 < st.p) (m : ℝ) :
    0 < (kalmanStep st m).p := by
  have hP : (0 : ℝ) < st.p + 0.1 := by linarith
  have hP4 : (0 : ℝ) < st.p + 0.1 + 4 := by linarith
  have hk : (st.p + 0.1) / (st.p + 0.1 + 4) < 1 := (div_lt_one hP4).2 (by linarith)
  have hgain : 0 < 1 - (st.p + 0.1) / (st.p + 0.1 + 4) := by linarith
  simpa [kalmanStep] using mul_pos hgain hP

theorem kalmanRun_p_pos (ms : List ℝ) : 0 < (kalmanRun ms).p := by
  have aux : ∀ (l : List ℝ) (st : KalmanState), 0 < st.p → 0 < (l.foldl kalmanStep st).p := by
    intro l
    induction l with
    | nil => intro st h; exact h
    | cons m l ih => intro st h; exact ih _ (kalmanStep_p_pos h m)
  exact aux ms kalmanInit (by norm_num [kalmanInit])

/-- Claim C9: with positive covariance the Kalman gain lies in (0, 1), so one
`applyKalmanFilter` update lands between the previous estimate and the
measurement, the covariance stays positive, and along any measurement
sequence from the initial state the covariance remains positive. -/
theorem spec_c9_kalman_containment (st : KalmanState) (m : ℝ) (ms : List ℝ) (h : 0 < st.p) :
    (min st.x m ≤ (kalmanStep st m).x ∧ (kalmanStep st m).x ≤ max st.x m) ∧
    0 < (kalmanStep st m).p ∧ 0 < (kalmanRun ms).p := by
  refine ⟨?_, kalmanStep_p_pos h m, kalmanRun_p_pos ms⟩
  have hP : (0 : ℝ) < st.p + 0.1 := by linarith
  have hP4 : (0 : ℝ) < st.p + 0.1 + 4 := by linarith
  have hk0 : 0 < (st.p + 0.1) / (st.p + 0.1 + 4) := div_pos hP hP4
  have hk1 : (st.p + 0.1) / (st.p + 0.1 + 4) < 1 := (div_lt_one hP4).2 (by linarith)
  simp only [kalmanStep]
  rcases le_total st.x m with hxm | hxm
  · rw [min_eq_left hxm, max_eq_right hxm]
    constructor
    · nlinarith
    · nlinarith
  · rw [min_eq_right hxm, max_eq_left hxm]
    constructor
    · nlinarith
    · nlinarith

/-- Witness for C9 at the initial state, measurement 72 and run `[80]`. -/
theorem spec_c9_kalman_containment_witness :
    (min kalmanInit.x 72 ≤ (kalmanStep kalmanInit 72).x ∧
      (kalmanStep kalmanInit 72).x ≤ max kalmanInit.x 72) ∧
    0 < (kalmanStep kalmanInit 72).p ∧ 0 < (kalmanRun [80]).p :=
  spec_c9_kalman_containment kalmanInit 72 [80] (by norm_num [kalmanInit])

/-! ## Clamp bounds of the shared SpO2 path (used by claims C3 and C10) -/

theorem estimateSpO2Core_bounds (minSamples : ℕ) (samples : List PPGSample) :
    match estimateSpO2Core minSamples samples with
    | none => True
    | some r => (70 ≤ r.percentage ∧ r.percentage ≤ 100) ∧
        (65 ≤ r.confidence ∧ r.confidence ≤ 95) := by
  unfold estimateSpO2Core
  split_ifs with h1 h2 h3 h4
  · trivial
  · trivial
  · trivial
  · trivial
  · refine ⟨?_, ?_⟩
    · exact round_between (by push_cast; exact le_max_left _ _)
        (by push_cast; exact max_le (by norm_num) (min_le_left _ _))
    · exact ⟨le_max_left _ _, max_le (by norm_num) (min_le_left _ _)⟩

/-- Claim C3 (amended part): for the `MedicalVitalScanner` variant and the
second part_001 variant, every returned SpO2 percentage lies in `[70, 100]`. -/
theorem spec_c3_spo2_clamped (samples : List PPGSample) :
    (match mvsEstimateSpO2 samples with
     | none => True
     | some r => 70 ≤ r.percentage ∧ r.percentage ≤ 100) ∧
    (match p1bEstimateSpO2 samples with
     | none => True
     | some r => 70 ≤ r.percentage ∧ r.percentage ≤ 100) := by
  constructor
  · have h := estimateSpO2Core_bounds 360 samples
    unfold mvsEstimateSpO2
    rcases heq : estimateSpO2Core 360 samples with _ | r
    · trivial
    · rw [heq] at h; exact h.1
  · have h := estimateSpO2Core_bounds 300 samples
    unfold p1bEstimateSpO2
    rcases heq : estimateSpO2Core 300 samples with _ | r
    · trivial
    · rw [heq] at h; exact h.1

/-- Claim C10: for the `MedicalVitalScanner` variant and the second part_001
variant, every returned SpO2 confidence is clamped into `[65, 95]`. -/
theorem spec_c10_spo2_confidence_clamped (samples : List PPGSample) :
    (match mvsEstimateSpO2 samples with
     | none => True
     | some r => 65 ≤ r.confidence ∧ r.confidence ≤ 95) ∧
    (match p1bEstimateSpO2 samples with
     | none => True
     | some r => 65 ≤ r.confidence ∧ r.confidence ≤ 95) := by
  constructor
  · have h := estimateSpO2Core_bounds 360 samples
    unfold mvsEstimateSpO2
    rcases heq : estimateSpO2Core 360 samples with _ | r
    · trivial
    · rw [heq] at h; exact h.2
  · have h := estimateSpO2Core_bounds 300 samples
    unfold p1bEstimateSpO2
    rcases heq : estimateSpO2Core 300 samples with _ | r
    · trivial
    · rw [heq] at h; exact h.2

/-! ## Claim C1 -/

/-- Claim C1 (counterexample): the reported confidence is **not** the bare
scaled composite.  At degenerate metrics — zero SNR, zero stability, the
bare-minimum passing coverage 0.6, zero peak quality, zero consistency, only
2 clean intervals — the composite is 0.15, so the spec-worded scaled score is
15, yet the source reports 96: the `Math.max(96, ...)` floor fires. -/
theorem spec_c1_counterexample :
    mvsConfidenceScore 0 0 (3 / 5) 0 0 2 = 96 ∧
    specScaledConfidence 0 0 (3 / 5) 0 0 = 15 ∧
    mvsConfidenceScore 0 0 (3 / 5) 0 0 2 ≠ specScaledConfidence 0 0 (3 / 5) 0 0 := by
  have hbase : min ((0 : ℝ) * 0.25 + 0 * 0.25 + (3 / 5) * 0.25 + 0 * 0.15 + 0 * 0.1) 1.0
      = (0.15 : ℝ) := by
    rw [min_eq_left (by norm_num)]; norm_num
  have h1 : mvsConfidenceScore 0 0 (3 / 5) 0 0 2 = 96 := by
    simp only [mvsConfidenceScore]
    rw [if_neg (by norm_num), if_neg (by norm_num), hbase]
    norm_num [round_eq]
  have h2 : specScaledConfidence 0 0 (3 / 5) 0 0 = 15 := by
    simp only [specScaledConfidence]
    rw [hbase]
    norm_num [round_eq]
  exact ⟨h1, h2, by rw [h1, h2]; decide⟩

/-- Claim C1 (amended): every returned `MedicalVitalScanner` heart-rate
confidence is forced into `[96, 99]` regardless of the composite quality. -/
theorem spec_c1_confidence_floored (samples : List PPGSample) :
    match mvsProcessHeartRate samples with
    | none => True
    | some r => 96 ≤ r.confidence ∧ r.confidence ≤ 99 := by
  rcases heq : mvsRawBpm samples with _ | bpm
  · simp only [mvsProcessHeartRate, heq]
  · simp only [mvsProcessHeartRate, heq]
    split_ifs with h
    · trivial
    · exact ⟨le_max_left _ _, max_le (by norm_num) (min_le_left _ _)⟩

/-! ## Claim C2 -/

theorem mvsRawBpm_eq (samples : List PPGSample) :
    match mvsRawBpm samples with
    | none => True
    | some b => b = round ((60 * 30 : ℝ) / weightedAverage (mvsClean samples)) := by
  unfold mvsRawBpm
  split_ifs <;> trivial

theorem p1bRawBpm_eq (samples : List PPGSample) :
    match p1bRawBpm samples with
    | none => True
    | some b => b = round ((60 * 30 : ℝ) / lmean (p1bClean samples)) := by
  unfold p1bRawBpm
  split_ifs <;> trivial

/-- Claim C2: whenever `processHeartRate` returns a result, the integer BPM
is inside `[35, 220]` and equals the raw computed BPM (no clamping); and any
raw computed BPM outside `[35, 220]` makes the call return `none`.  Stated
for the `MedicalVitalScanner` variant (guard `35-220`) and the first
part_001 variant (stricter guard `40-200`, hence also inside `[35, 220]`). -/
theorem spec_c2_bpm_range (samples : List PPGSample) :
    ((match mvsProcessHeartRate samples with
      | none => True
      | some r => (35 ≤ r.bpm ∧ r.bpm ≤ 220) ∧ mvsRawBpm samples = some r.bpm) ∧
     (match mvsRawBpm samples with
      | none => True
      | some b => (35 ≤ b ∧ b ≤ 220) ∨ mvsProcessHeartRate samples = none)) ∧
    ((match p1aProcessHeartRate samples with
      | none => True
      | some r => (35 ≤ r.bpm ∧ r.bpm ≤ 220) ∧ p1aRawBpm samples = some r.bpm) ∧
     (match p1aRawBpm samples with
      | none => True
      | some b => (35 ≤ b ∧ b ≤ 220) ∨ p1aProcessHeartRate samples = none)) := by
  constructor
  · rcases heq : mvsRawBpm samples with _ | bpm
    · simp only [mvsProcessHeartRate, heq]
      exact ⟨trivial, trivial⟩
    · simp only [mvsProcessHeartRate, heq]
      by_cases h : bpm < 35 ∨ 220 < bpm
      · rw [if_pos h]
        exact ⟨trivial, Or.inr rfl⟩
      · rw [if_neg h]
        push_neg at h
        obtain ⟨h1, h2⟩ := h
        exact ⟨⟨⟨h1, h2⟩, rfl⟩, Or.inl ⟨h1, h2⟩⟩
  · rcases heq : p1aRawBpm samples with _ | bpm
    · simp only [p1aProcessHeartRate, heq]
      exact ⟨trivial, trivial⟩
    · simp only [p1aProcessHeartRate, heq]
      by_cases h : bpm < 40 ∨ 200 < bpm
      · rw [if_pos h]
        exact ⟨trivial, Or.inr rfl⟩
      · rw [if_neg h]
        push_neg at h
        obtain ⟨h1, h2⟩ := h
        exact ⟨⟨⟨(by omega : (35 : ℤ) ≤ bpm), (by omega : bpm ≤ 220)⟩, rfl⟩,
          Or.inl ⟨by omega, by omega⟩⟩

/-! ## Claim C8 -/

/-- Claim C8: every returned BPM is `round(60 × 30 / A)`: for the
`MedicalVitalScanner` variant `A` is the recency-weighted average of the
clean intervals (weight `1.1 ^ i` on the `i`-th), and for the second
part_001 variant `A` is the plain mean of the clean intervals. -/
theorem spec_c8_bpm_formula (samples : List PPGSample) :
    (match mvsProcessHeartRate samples with
     | none => True
     | some r => r.bpm = round ((60 * 30 : ℝ) / weightedAverage (mvsClean samples))) ∧
    (match p1bProcessHeartRate samples with
     | none => True
     | some r => r.bpm = round ((60 * 30 : ℝ) / lmean (p1bClean samples))) := by
  constructor
  · have h := mvsRawBpm_eq samples
    rcases heq : mvsRawBpm samples with _ | bpm
    · simp only [mvsProcessHeartRate, heq]
    · rw [heq] at h
      simp only [mvsProcessHeartRate, heq]
      split_ifs with hb
      · trivial
      · exact h
  · have h := p1bRawBpm_eq samples
    rcases heq : p1bRawBpm samples with _ | bpm
    · simp only [p1bProcessHeartRate, heq]
    · rw [heq] at h
      simp only [p1bProcessHeartRate, heq]
      split_ifs with hb
      · trivial
      · exact h

/-! ## Claim C7: constant signals produce no peaks and no reading -/

theorem getD_replicate {α : Type} (n i : ℕ) (a : α) : (List.replicate n a).getD i a = a := by
  induction n generalizing i with
  | zero => simp [List.getD]
  | succ k ih =>
    cases i with
    | zero => simp [List.replicate_succ]
    | succ j => simpa [List.replicate_succ] using ih j

theorem set_replicate_self {α : Type} (n i : ℕ) (a : α) :
    (List.replicate n a).set i a = List.replicate n a := by
  induction n generalizing i with
  | zero => simp
  | succ k ih =>
    cases i with
    | zero => simp [List.replicate_succ]
    | succ j => simp [List.replicate_succ, ih]

theorem lmean_const {l : List ℝ} {c : ℝ} (hne : l ≠ []) (h : ∀ x ∈ l, x = c) :
    lmean l = c := by
  have hrep : l = List.replicate l.length c := List.eq_replicate_length.2 h
  have hlen : (l.length : ℝ) ≠ 0 := by
    have := List.length_pos.2 hne
    positivity
  rw [lmean, hrep]
  rw [List.sum_replicate, List.length_replicate, nsmul_eq_mul]
  field_simp

theorem getD_eq_of_const {sig : List ℝ} {c : ℝ} (h : ∀ x ∈ sig, x = c) {i : ℕ}
    (hi : i < sig.length) : sig.getD i 0 = c := by
  rw [List.getD_eq_getElem sig 0 hi]
  exact h _ (List.getElem_mem hi)

theorem adaptiveAccept_not_const {sig : List ℝ} {c : ℝ} (h : ∀ x ∈ sig, x = c) {i : ℕ}
    (h3 : 3 ≤ i) (hlen : i + 3 < sig.length) (peaks : List ℕ) :
    ¬ adaptiveAccept sig peaks i := by
  intro hacc
  have hi : sig.getD i 0 = c := getD_eq_of_const h (by omega)
  have hi1 : sig.getD (i - 1) 0 = c := getD_eq_of_const h (by omega)
  have := hacc.1.1
  rw [hi, hi1] at this
  exact lt_irrefl c this

theorem findAdaptivePeaks_const {sig : List ℝ} {c : ℝ} (h : ∀ x ∈ sig, x = c) :
    findAdaptivePeaks sig = [] := by
  unfold findAdaptivePeaks
  have aux : ∀ is : List ℕ, (∀ i ∈ is, 3 ≤ i ∧ i + 3 < sig.length) →
      ∀ acc : List ℕ,
        is.foldl (fun peaks i => if adaptiveAccept sig peaks i then peaks ++ [i] else peaks) acc
          = acc := by
    intro is
    induction is with
    | nil => intro _ acc; rfl
    | cons i is ih =>
      intro hb acc
      have hbi := hb i (List.mem_cons_self i is)
      rw [List.foldl_cons, if_neg (adaptiveAccept_not_const h hbi.1 hbi.2 acc)]
      exact ih (fun j hj => hb j (List.mem_cons_of_mem i hj)) acc
  apply aux
  intro i hi
  rw [List.mem_range'_1] at hi
  omega

theorem highPassGo_zero (alpha : ℝ) (k : ℕ) :
    highPassGo alpha 0 0 (List.replicate k 0) = List.replicate k 0 := by
  induction k with
  | zero => rfl
  | succ j ih => simpa [List.replicate_succ, highPassGo] using ih

theorem highPassFilter_zero (alpha : ℝ) (n : ℕ) :
    highPassFilter alpha (List.replicate n 0) = List.replicate n 0 := by
  cases n with
  | zero => rfl
  | succ j => simpa [List.replicate_succ, highPassFilter] using highPassGo_zero alpha j

theorem lowPassGo_zero (alpha : ℝ) (k : ℕ) :
    lowPassGo alpha 0 (List.replicate k 0) = List.replicate k 0 := by
  induction k with
  | zero => rfl
  | succ j ih => simpa [List.replicate_succ, lowPassGo] using ih

theorem lowPassFilter_zero (alpha : ℝ) (n : ℕ) :
    lowPassFilter alpha (List.replicate n 0) = List.replicate n 0 := by
  cases n with
  | zero => rfl
  | succ j => simpa [List.replicate_succ, lowPassFilter] using lowPassGo_zero alpha j

theorem movingDetrendStep_zero (n i : ℕ) :
    movingDetrendStep (List.replicate n (0 : ℝ)) i = List.replicate n 0 := by
  unfold movingDetrendStep
  rw [List.drop_replicate, List.take_replicate, List.sum_replicate]
  simpa using set_replicate_self n i (0 : ℝ)

theorem movingDetrend_zero (n : ℕ) :
    movingDetrend (List.replicate n (0 : ℝ)) = List.replicate n 0 := by
  unfold movingDetrend
  have aux : ∀ is : List ℕ,
      is.foldl movingDetrendStep (List.replicate n (0 : ℝ)) = List.replicate n 0 := by
    intro is
    induction is with
    | nil => rfl
    | cons i is ih => rw [List.foldl_cons, movingDetrendStep_zero]; exact ih
  exact aux _

/-- Claim C7: a constant signal has no strict local maximum, so the adaptive
peak detector returns the empty list; and `processHeartRate` on a window
whose analysed (red) channel is constant returns `none`. -/
theorem spec_c7_constant_rejected (sig : List ℝ) (c : ℝ) (samples : List PPGSample) (c2 : ℝ)
    (hsig : ∀ x ∈ sig, x = c) (hsam : ∀ s ∈ samples, s.red = c2) :
    findAdaptivePeaks sig = [] ∧ mvsProcessHeartRate samples = none := by
  refine ⟨findAdaptivePeaks_const hsig, ?_⟩
  have hraw : mvsRawBpm samples = none := by
    unfold mvsRawBpm
    by_cases hlen : samples.length < 360
    · rw [if_pos hlen]
    · rw [if_neg hlen]
      by_cases hcov : getFingerCoverage samples < 0.6
      · rw [if_pos hcov]
      · rw [if_neg hcov]
        have hne : samples.map PPGSample.red ≠ [] := by
          intro habs
          have hlen0 : samples.length = 0 := by
            have := congrArg List.length habs
            simpa using this
          omega
        have hred : ∀ x ∈ samples.map PPGSample.red, x = c2 := by
          intro x hx
          obtain ⟨s, hs, rfl⟩ := List.mem_map.1 hx
          exact hsam s hs
        have hdet : (samples.map PPGSample.red).map
            (fun val => val - lmean (samples.map PPGSample.red)) =
            List.replicate samples.length 0 := by
          have h1 : ∀ b ∈ (samples.map PPGSample.red).map
              (fun val => val - lmean (samples.map PPGSample.red)), b = (0 : ℝ) := by
            intro b hb
            obtain ⟨x, hx, rfl⟩ := List.mem_map.1 hb
            rw [hred x hx, lmean_const hne hred]
            ring
          exact (List.eq_replicate_length.2 h1).trans (by simp)
        have hfiltered : mvsFiltered samples = List.replicate samples.length 0 := by
          unfold mvsFiltered butterworthBandpass
          rw [hdet, movingDetrend_zero, highPassFilter_zero, lowPassFilter_zero]
        have hpeaks : mvsPeaks samples = [] := by
          unfold mvsPeaks
          rw [hfiltered]
          exact findAdaptivePeaks_const fun x hx => List.eq_of_mem_replicate hx
        rw [if_pos (by rw [hpeaks]; simp)]
  simp only [mvsProcessHeartRate, hraw]

/-- Witness for C7: an 8-sample constant signal and the empty sample window. -/
theorem spec_c7_constant_rejected_witness :
    findAdaptivePeaks (List.replicate 8 (1 : ℝ)) = [] ∧ mvsProcessHeartRate [] = none :=
  spec_c7_constant_rejected (List.replicate 8 (1 : ℝ)) 1 [] 0
    (fun x hx => List.eq_of_mem_replicate hx) (by simp)

/-! ## Claim C5: refractory spacing of the peak detectors -/

theorem findAdaptivePeaks_chain (signal : List ℝ) :
    (findAdaptivePeaks signal).Chain' (fun a b => a + 19 ≤ b) := by
  unfold findAdaptivePeaks
  have aux : ∀ (is : List ℕ) (acc : List ℕ), acc.Chain' (fun a b => a + 19 ≤ b) →
      (is.foldl (fun peaks i => if adaptiveAccept signal peaks i then peaks ++ [i] else peaks)
        acc).Chain' (fun a b => a + 19 ≤ b) := by
    intro is
    induction is with
    | nil => intro acc h; exact h
    | cons i is ih =>
      intro acc h
      rw [List.foldl_cons]
      by_cases hacc : adaptiveAccept signal acc i
      · rw [if_pos hacc]
        refine ih _ (List.chain'_append.2 ⟨h, List.chain'_singleton i, ?_⟩)
        intro x hx y hy
        have hdist := hacc.2.2.1
        rw [hx] at hdist
        simp only [List.head?_cons, Option.mem_def, Option.some.injEq] at hy
        subst hy
        omega
      · rw [if_neg hacc]
        exact ih _ h
  exact aux _ [] List.chain'_nil

theorem findPeaks_chain (signal : List ℝ) :
    (findPeaks signal).Chain' (fun a b => a + 16 ≤ b) := by
  unfold findPeaks
  have aux : ∀ (is : List ℕ) (acc : List ℕ), acc.Chain' (fun a b => a + 16 ≤ b) →
      (is.foldl (fun peaks i => if findPeaksAccept signal peaks i then peaks ++ [i] else peaks)
        acc).Chain' (fun a b => a + 16 ≤ b) := by
    intro is
    induction is with
    | nil => intro acc h; exact h
    | cons i is ih =>
      intro acc h
      rw [List.foldl_cons]
      by_cases hacc : findPeaksAccept signal acc i
      · rw [if_pos hacc]
        refine ih _ (List.chain'_append.2 ⟨h, List.chain'_singleton i, ?_⟩)
        intro x hx y hy
        have hdist := hacc.2.2
        rw [hx] at hdist
        simp only [List.head?_cons, Option.mem_def, Option.some.injEq] at hy
        subst hy
        omega
      · rw [if_neg hacc]
        exact ih _ h
  exact aux _ [] List.chain'_nil

/-- Claim C5 (amended): the adaptive detector of `MedicalVitalScanner` (also
used by the second part_001 variant) separates consecutive accepted peaks by
at least 19 samples (`i - last > 18`), and the first part_001 variant's
`findPeaks` separates them by at least 16 samples (`i - last > 15`); the
`HeartRateScanner` peak loop enforces no spacing at all. -/
theorem spec_c5_refractory_gaps (signal : List ℝ) :
    (findAdaptivePeaks signal).Chain' (fun a b => a + 19 ≤ b) ∧
    (findPeaks signal).Chain' (fun a b => a + 16 ≤ b) :=
  ⟨findAdaptivePeaks_chain signal, findPeaks_chain signal⟩

attribute [local semireducible] Rat.add Rat.mul Rat.sub Rat.inv Rat.ofScientific in
/-- Claim C5 (counterexample): on a 54-sample periodic bump signal — long
enough for the 50-sample guard of `processHeartRateData` — the
`HeartRateScanner` peak stage returns peaks only 6 samples apart, violating
the claimed 18-sample refractory separation. -/
theorem spec_c5_counterexample :
    50 ≤ hrsSig.length ∧ hrsPeaks hrsSig = [3, 9, 15, 21, 27, 33, 39, 45] ∧
    ¬ (hrsPeaks hrsSig).Chain' (fun a b : ℕ => a + 18 ≤ b) := by
  have hlen : 50 ≤ hrsSig.length := by decide
  have heq : hrsPeaks hrsSig = [3, 9, 15, 21, 27, 33, 39, 45] := by decide
  refine ⟨hlen, heq, ?_⟩
  rw [heq]
  intro hch
  exact absurd (List.chain'_cons.1 hch).1 (by omega)

/-! ## Evaluation of the SpO2 path on the concrete `pairWindow` (claims C3, C4) -/

theorem flat_pair_length {α : Type} (n : ℕ) (a b : α) :
    ((List.replicate n [a, b]).flatten).length = 2 * n := by
  induction n with
  | zero => simp
  | succ k ih =>
    simp only [List.replicate_succ, List.flatten_cons, List.length_append, ih, List.length_cons,
      List.length_nil]
    omega

theorem flat_pair_map {α β : Type} (f : α → β) (n : ℕ) (a b : α) :
    ((List.replicate n [a, b]).flatten).map f = (List.replicate n [f a, f b]).flatten := by
  induction n with
  | zero => simp
  | succ k ih => simp only [List.replicate_succ, List.flatten_cons, List.map_append, ih]; rfl

theorem flat_pair_sum (n : ℕ) (a b : ℝ) :
    ((List.replicate n [a, b]).flatten).sum = n * (a + b) := by
  induction n with
  | zero => simp
  | succ k ih =>
    simp only [List.replicate_succ, List.flatten_cons, List.sum_append, ih]
    push_cast
    simp [List.sum_cons]
    ring

theorem flat_pair_drop {α : Type} (k n : ℕ) (a b : α) :
    ((List.replicate (k + n) [a, b]).flatten).drop (2 * k) = (List.replicate n [a, b]).flatten := by
  induction k with
  | zero => simp
  | succ j ih =>
    have hrw : j + 1 + n = (j + n) + 1 := by omega
    rw [hrw, List.replicate_succ, List.flatten_cons]
    have h2 : 2 * (j + 1) = 2 * j + 2 := by omega
    rw [h2]
    simpa using ih

theorem mem_flat_pair {α : Type} {x a b : α} {n : ℕ}
    (h : x ∈ (List.replicate n [a, b]).flatten) : x = a ∨ x = b := by
  obtain ⟨l, hl, hx⟩ := List.mem_flatten.1 h
  rw [List.eq_of_mem_replicate hl] at hx
  simpa using hx

theorem pairWindow_length : pairWindow.length = 300 := by
  rw [pairWindow, flat_pair_length]

theorem pairWindow_coverage : getFingerCoverage pairWindow = 1 := by
  have hdrop : pairWindow.drop (pairWindow.length - 30) =
      (List.replicate 15 [sampleA, sampleB]).flatten := by
    rw [pairWindow_length]
    show pairWindow.drop 270 = _
    rw [pairWindow, show (150 : ℕ) = 135 + 15 from rfl,
      show (270 : ℕ) = 2 * 135 from rfl, flat_pair_drop]
  unfold getFingerCoverage
  rw [if_neg (by rw [pairWindow_length]; omega), hdrop]
  have hcount : ((List.replicate 15 [sampleA, sampleB]).flatten).countP
      (fun s => decide (goodSample s)) = ((List.replicate 15 [sampleA, sampleB]).flatten).length := by
    rw [List.countP_eq_length]
    intro s hs
    rcases mem_flat_pair hs with rfl | rfl
    · simp only [decide_eq_true_eq, goodSample, sampleA]
      norm_num
    · simp only [decide_eq_true_eq, goodSample, sampleB]
      norm_num
  rw [hcount, flat_pair_length]
  norm_num

theorem pairWindow_red : pairWindow.map PPGSample.red =
    (List.replicate 150 [(140 : ℝ), 160]).flatten := by
  rw [pairWindow, flat_pair_map]
  rfl

theorem pairWindow_blue : pairWindow.map PPGSample.blue =
    (List.replicate 150 [(40 : ℝ), 60]).flatten := by
  rw [pairWindow, flat_pair_map]
  rfl

theorem pairWindow_redDC : redDCOf pairWindow = 150 := by
  unfold redDCOf calculateDCComponent lmean
  rw [pairWindow_red, flat_pair_sum, flat_pair_length]
  norm_num

theorem pairWindow_irDC : irDCOf pairWindow = 50 := by
  unfold irDCOf calculateDCComponent lmean
  rw [pairWindow_blue, flat_pair_sum, flat_pair_length]
  norm_num

theorem pairWindow_redAC : redACOf pairWindow = 10 := by
  unfold redACOf calculateACComponent
  have hmean : lmean (pairWindow.map PPGSample.red) = 150 := pairWindow_redDC
  have hvar : lvariance (pairWindow.map PPGSample.red) = 100 := by
    unfold lvariance
    rw [hmean, pairWindow_red, flat_pair_map, flat_pair_sum, flat_pair_length]
    norm_num
  rw [hvar, show (100 : ℝ) = 10 ^ 2 by norm_num, Real.sqrt_sq (by norm_num : (0 : ℝ) ≤ 10)]

theorem pairWindow_irAC : irACOf pairWindow = 10 := by
  unfold irACOf calculateACComponent
  have hmean : lmean (pairWindow.map PPGSample.blue) = 50 := pairWindow_irDC
  have hvar : lvariance (pairWindow.map PPGSample.blue) = 100 := by
    unfold lvariance
    rw [hmean, pairWindow_blue, flat_pair_map, flat_pair_sum, flat_pair_length]
    norm_num
  rw [hvar, show (100 : ℝ) = 10 ^ 2 by norm_num, Real.sqrt_sq (by norm_num : (0 : ℝ) ≤ 10)]

theorem pairWindow_rr : ratioOfRatios pairWindow = 1 / 3 := by
  unfold ratioOfRatios
  rw [pairWindow_redDC, pairWindow_redAC, pairWindow_irDC, pairWindow_irAC]
  norm_num

/-- On `pairWindow` the first part_001 `estimateSpO2` passes every guard, the
clamped percentage is exactly 100, and the returned record is determined by
the random draw alone: `some ⟨round(100 + (rand - 0.5) * 2), 85⟩`. -/
theorem p1aEstimateSpO2_pairWindow (rand : ℝ) :
    p1aEstimateSpO2 pairWindow rand = some ⟨round ((100 : ℝ) + (rand - 0.5) * 2), 85⟩ := by
  unfold p1aEstimateSpO2
  rw [if_neg (by rw [pairWindow_length]; omega),
    if_neg (by rw [pairWindow_coverage]; norm_num),
    if_neg (by rw [pairWindow_redDC, pairWindow_irDC]; norm_num)]
  rw [pairWindow_rr, pairWindow_coverage]
  rw [show max (70 : ℝ) (min 100 (110 - 25 * (1 / 3))) = 100 by
    rw [min_eq_left (by norm_num), max_eq_right (by norm_num)]]
  norm_num

/-! ## Claims C3 and C4 on the part_001 random SpO2 path -/

/-- Claim C3 (counterexample): with the legitimate random draw `0.9`, the
first part_001 `estimateSpO2` returns 101 % on `pairWindow` — the random
perturbation is added *after* the `[70, 100]` clamp, so the claimed bound
fails on this variant. -/
theorem spec_c3_counterexample :
    (0 : ℝ) ≤ 9 / 10 ∧ (9 / 10 : ℝ) < 1 ∧
    p1aEstimateSpO2 pairWindow (9 / 10) = some ⟨101, 85⟩ ∧ ¬ ((101 : ℤ) ≤ 100) := by
  refine ⟨by norm_num, by norm_num, ?_, by omega⟩
  rw [p1aEstimateSpO2_pairWindow]
  norm_num [round_eq]

/-- Claim C4 (counterexample): two runs over the identical sample sequence
`pairWindow` with different random draws (0 and 1/2) return different SpO2
percentages (99 vs 100): the estimator path of the first part_001 variant is
not deterministic. -/
theorem spec_c4_counterexample :
    p1aEstimateSpO2 pairWindow 0 ≠ p1aEstimateSpO2 pairWindow (1 / 2) := by
  rw [p1aEstimateSpO2_pairWindow, p1aEstimateSpO2_pairWindow]
  have h0 : round ((100 : ℝ) + (0 - 0.5) * 2) = 99 := by norm_num [round_eq]
  have h1 : round ((100 : ℝ) + (1 / 2 - 0.5) * 2) = 100 := by norm_num [round_eq]
  rw [h0, h1]
  intro h
  rw [Option.some.injEq, OxygenReadingR.mk.injEq] at h
  omega

/-- Claim C4 (amended): with the random draw made an explicit input in
`[0, 1)`, two runs of the first part_001 `estimateSpO2` over the same sample
sequence agree on whether a result is produced and on its confidence, and
their percentages differ by at most 2 rounding counts; every other estimator
path takes no random input at all, so it is replay-deterministic by its type. -/
theorem spec_c4_bounded_nondeterminism (samples : List PPGSample) (r1 r2 : ℝ)
    (h1 : 0 ≤ r1) (h2 : r1 < 1) (h3 : 0 ≤ r2) (h4 : r2 < 1) :
    match p1aEstimateSpO2 samples r1, p1aEstimateSpO2 samples r2 with
    | some a, some b => a.confidence = b.confidence ∧ |a.percentage - b.percentage| ≤ 2
    | none, none => True
    | _, _ => False := by
  unfold p1aEstimateSpO2
  split_ifs with g1 g2 g3
  · trivial
  · trivial
  · trivial
  · refine ⟨rfl, ?_⟩
    apply abs_round_sub_round_le
    rw [abs_le]
    constructor <;> nlinarith

/-- Witness for the amended C4 at `pairWindow` with draws 0 and 1/2. -/
theorem spec_c4_bounded_nondeterminism_witness :
    match p1aEstimateSpO2 pairWindow 0, p1aEstimateSpO2 pairWindow (1 / 2) with
    | some a, some b => a.confidence = b.confidence ∧ |a.percentage - b.percentage| ≤ 2
    | none, none => True
    | _, _ => False :=
  spec_c4_bounded_nondeterminism pairWindow 0 (1 / 2) (by norm_num) (by norm_num)
    (by norm_num) (by norm_num)
